import Mathlib

/-!
Verification development for the snykey credential broker.

The definitions below are a shallow embedding of the Python sources:
  - services/oauth.py      (PKCE generator: code challenge derivation)
  - services/snyk.py       (identity-provider client: refresh, exchange,
                            register, authorization-URL construction)
  - services/redis.py      (token cache client: auth-token and PKCE-session
                            storage over a key-value store)
  - services/openbao.py    (secret store client: refresh-key storage)
  - api/v1/endpoints.py    (the credential orchestrator HTTP handlers)

External systems (the Redis server, the OpenBao vault, and the Snyk API)
are modelled as oracle fields of a `World` record: the key-value contents
of the cache and the vault, plus injectable failure outcomes for the
network calls.  Handlers are total functions from a `World` and the
request parameters to the new `World`, the HTTP response, and the trace
of external calls made, mirroring the Python control flow statement by
statement (try/except blocks become matches on `Except` values).
-/

namespace Snykey

/-! ## Byte-level primitives (UTF-8, SHA-256, base64url, percent-encoding) -/

/-- Whitespace characters stripped by the Python `str.strip()` default
(ASCII subset; exotic Unicode space classes are not modelled). -/
def isSpaceChar (c : Char) : Bool :=
  c == ' ' || c == '\t' || c == '\n' || c == '\r' || c == '\x0b' || c == '\x0c'

/-- Python `str.strip()`: drop leading and trailing whitespace. -/
def pyStrip (s : String) : String :=
  String.mk (((s.data.dropWhile isSpaceChar).reverse.dropWhile isSpaceChar).reverse)

/-- Worker for `pySplitComma`, collecting the current field in reverse. -/
def pySplitCommaGo : List Char → List Char → List String
  | [], acc => [String.mk acc.reverse]
  | c :: cs, acc =>
      if c == ',' then String.mk acc.reverse :: pySplitCommaGo cs []
      else pySplitCommaGo cs (c :: acc)

/-- Python `str.split(",")`: always at least one field, empty fields kept. -/
def pySplitComma (s : String) : List String :=
  pySplitCommaGo s.data []

/-- Whether the first list is an initial segment of the second. -/
def listIsPfx : List Char → List Char → Bool
  | [], _ => true
  | _ :: _, [] => false
  | a :: as, b :: bs => a == b && listIsPfx as bs

/-- Drop the first `n` characters of a string. -/
def strDropN (s : String) (n : Nat) : String :=
  String.mk (s.data.drop n)

/-- UTF-8 encoding of a Unicode scalar value. -/
def utf8EncodeCodepoint (c : Nat) : List Nat :=
  if c < 128 then [c]
  else if c < 2048 then [192 + c / 64, 128 + c % 64]
  else if c < 65536 then [224 + c / 4096, 128 + c / 64 % 64, 128 + c % 64]
  else [240 + c / 262144, 128 + c / 4096 % 64, 128 + c / 64 % 64, 128 + c % 64]

/-- UTF-8 bytes of a string, as natural numbers (models `s.encode("utf-8")`). -/
def strBytes (s : String) : List Nat :=
  (s.data.map Char.toNat).flatMap utf8EncodeCodepoint

/-- Truncation to a 32-bit word. -/
def w32 (n : Nat) : Nat := n % 4294967296

/-- Right rotation of a 32-bit word by `n` bits (exact arithmetic form:
the two parts occupy disjoint bit ranges, so addition is bitwise or). -/
def rotr (n x : Nat) : Nat := x / 2 ^ n + x % 2 ^ n * 2 ^ (32 - n)

/-- SHA-256 round constants (decimal values of the standard table). -/
def shaK : List Nat :=
  [1116352408, 1899447441, 3049323471, 3921009573,
   961987163, 1508970993, 2453635748, 2870763221,
   3624381080, 310598401, 607225278, 1426881987,
   1925078388, 2162078206, 2614888103, 3248222580,
   3835390401, 4022224774, 264347078, 604807628,
   770255983, 1249150122, 1555081692, 1996064986,
   2554220882, 2821834349, 2952996808, 3210313671,
   3336571891, 3584528711, 113926993, 338241895,
   666307205, 773529912, 1294757372, 1396182291,
   1695183700, 1986661051, 2177026350, 2456956037,
   2730485921, 2820302411, 3259730800, 3345764771,
   3516065817, 3600352804, 4094571909, 275423344,
   430227734, 506948616, 659060556, 883997877,
   958139571, 1322822218, 1537002063, 1747873779,
   1955562222, 2024104815, 2227730452, 2361852424,
   2428436474, 2756734187, 3204031479, 3329325298]

/-- SHA-256 padding: append 0x80, zero bytes to 56 mod 64, then the
bit length as eight big-endian bytes. -/
def shaPad (msg : List Nat) : List Nat :=
  let len := msg.length
  let bitLen := len * 8
  let zeros := (119 - len % 64) % 64
  msg ++ [128] ++ List.replicate zeros 0 ++
    [bitLen / 2 ^ 56 % 256, bitLen / 2 ^ 48 % 256, bitLen / 2 ^ 40 % 256,
     bitLen / 2 ^ 32 % 256, bitLen / 2 ^ 24 % 256, bitLen / 2 ^ 16 % 256,
     bitLen / 2 ^ 8 % 256, bitLen % 256]

/-- Group bytes into big-endian 32-bit words. -/
def bytesToWords : List Nat → List Nat
  | a :: b :: c :: d :: rest =>
      (a * 16777216 + b * 65536 + c * 256 + d) :: bytesToWords rest
  | _ => []

/-- Accumulating chunker: collects the current chunk in reverse and emits
it every 64 elements (structural recursion, so it reduces in the kernel). -/
def chunks64Go : List Nat → List Nat → List (List Nat)
  | [], acc => if acc = [] then [] else [acc.reverse]
  | x :: xs, acc =>
      if acc.length = 63 then (acc.reverse ++ [x]) :: chunks64Go xs []
      else chunks64Go xs (x :: acc)

/-- Split a list into chunks of 64 elements. -/
def chunks64 (l : List Nat) : List (List Nat) :=
  chunks64Go l []

/-- SHA-256 working state (eight 32-bit words). -/
structure H8 where
  a : Nat
  b : Nat
  c : Nat
  d : Nat
  e : Nat
  f : Nat
  g : Nat
  h : Nat
deriving Repr, DecidableEq

/-- SHA-256 initial hash value (decimal values of the standard table). -/
def shaH0 : H8 :=
  ⟨1779033703, 3144134277, 1013904242, 2773480762,
   1359893119, 2600822924, 528734635, 1541459225⟩

/-- Message-schedule extension of the 16 block words to 64 words. -/
def shaSchedule (ws : List Nat) : Array Nat :=
  (List.range 48).foldl
    (fun arr j =>
      let x15 := arr.getD (j + 1) 0
      let x2 := arr.getD (j + 14) 0
      let x16 := arr.getD j 0
      let x7 := arr.getD (j + 9) 0
      let s0 := Nat.xor (rotr 7 x15) (Nat.xor (rotr 18 x15) (x15 / 2 ^ 3))
      let s1 := Nat.xor (rotr 17 x2) (Nat.xor (rotr 19 x2) (x2 / 2 ^ 10))
      arr.push (w32 (x16 + s0 + x7 + s1)))
    ws.toArray

/-- One SHA-256 compression round. -/
def shaRound (wArr : Array Nat) (st : H8) (i : Nat) : H8 :=
  let s1 := Nat.xor (rotr 6 st.e) (Nat.xor (rotr 11 st.e) (rotr 25 st.e))
  let ch := Nat.xor (Nat.land st.e st.f) (Nat.land (Nat.xor 4294967295 st.e) st.g)
  let t1 := w32 (st.h + s1 + ch + shaK.getD i 0 + wArr.getD i 0)
  let s0 := Nat.xor (rotr 2 st.a) (Nat.xor (rotr 13 st.a) (rotr 22 st.a))
  let mj := Nat.xor (Nat.land st.a st.b)
              (Nat.xor (Nat.land st.a st.c) (Nat.land st.b st.c))
  let t2 := w32 (s0 + mj)
  ⟨w32 (t1 + t2), st.a, st.b, st.c, w32 (st.d + t1), st.e, st.f, st.g⟩

/-- Process one 64-byte block. -/
def shaBlock (hs : H8) (block : List Nat) : H8 :=
  let wArr := shaSchedule (bytesToWords block)
  let st := (List.range 64).foldl (shaRound wArr) hs
  ⟨w32 (hs.a + st.a), w32 (hs.b + st.b), w32 (hs.c + st.c), w32 (hs.d + st.d),
   w32 (hs.e + st.e), w32 (hs.f + st.f), w32 (hs.g + st.g), w32 (hs.h + st.h)⟩

/-- Big-endian bytes of a 32-bit word. -/
def wordBytes (x : Nat) : List Nat :=
  [x / 2 ^ 24 % 256, x / 2 ^ 16 % 256, x / 2 ^ 8 % 256, x % 256]

/-- SHA-256 digest (32 bytes) of a byte sequence (models `hashlib.sha256`). -/
def sha256 (msg : List Nat) : List Nat :=
  let hs := (chunks64 (shaPad msg)).foldl shaBlock shaH0
  wordBytes hs.a ++ wordBytes hs.b ++ wordBytes hs.c ++ wordBytes hs.d ++
    wordBytes hs.e ++ wordBytes hs.f ++ wordBytes hs.g ++ wordBytes hs.h

/-- Character of the URL-safe base64 alphabet. -/
def b64urlChar (n : Nat) : Char :=
  if n < 26 then Char.ofNat (65 + n)
  else if n < 52 then Char.ofNat (97 + (n - 26))
  else if n < 62 then Char.ofNat (48 + (n - 52))
  else if n = 62 then Char.ofNat 45
  else Char.ofNat 95

/-- URL-safe base64 of a byte sequence with padding stripped (models
`base64.urlsafe_b64encode(x).rstrip(b"=")`: padding characters are simply
never emitted). -/
def b64urlNoPadChars : List Nat → List Char
  | [] => []
  | [a] => [b64urlChar (a / 4), b64urlChar (a % 4 * 16)]
  | [a, b] =>
      [b64urlChar (a / 4), b64urlChar (a % 4 * 16 + b / 16),
       b64urlChar (b % 16 * 4)]
  | a :: b :: c :: rest =>
      b64urlChar (a / 4) :: b64urlChar (a % 4 * 16 + b / 16) ::
        b64urlChar (b % 16 * 4 + c / 64) :: b64urlChar (c % 64) ::
          b64urlNoPadChars rest

/-- URL-safe base64 string without padding. -/
def b64urlNoPad (bytes : List Nat) : String :=
  String.mk (b64urlNoPadChars bytes)

/-- Uppercase hex digit. -/
def hexDigit (n : Nat) : Char :=
  if n < 10 then Char.ofNat (48 + n) else Char.ofNat (55 + n)

/-- Percent-encoding of one byte in the style of `urllib.parse.quote_plus`
with empty safe set: alphanumerics and `_.-~` kept, space becomes plus,
everything else percent-encoded in uppercase hex. -/
def quotePlusByte (b : Nat) : List Char :=
  if (65 ≤ b && b ≤ 90) || (97 ≤ b && b ≤ 122) || (48 ≤ b && b ≤ 57)
      || b == 95 || b == 46 || b == 45 || b == 126 then
    [Char.ofNat b]
  else if b == 32 then [Char.ofNat 43]
  else [Char.ofNat 37, hexDigit (b / 16), hexDigit (b % 16)]

/-- Percent-encoding of a string (models `urllib.parse.quote_plus`). -/
def quotePlus (s : String) : String :=
  String.mk (((strBytes s).map quotePlusByte).flatten)

/-- Form encoding of key-value pairs (models `urllib.parse.urlencode`). -/
def urlencode (ps : List (String × String)) : String :=
  String.intercalate "&" (ps.map (fun p => quotePlus p.1 ++ "=" ++ quotePlus p.2))

/-! ## services/oauth.py -/

/-- Code-challenge derivation from services/oauth.py: reject an empty
verifier with a ValueError, otherwise return the URL-safe base64 of the
SHA-256 digest of the UTF-8 verifier, padding stripped. -/
def generate_code_challenge (code_verifier : String) : Except String String :=
  if code_verifier = "" then .error "Code verifier must not be empty."
  else .ok (b64urlNoPad (sha256 (strBytes code_verifier)))

/-! ## services/snyk.py: authorization URL construction -/

/-- Authorization URL construction from services/snyk.py
(`generate_auth_url`): pure string building over `urlencode` with the
parameters in the literal order of the source dict. -/
def generate_auth_url (client_id redirect_uri : String) (scopes : List String)
    (state code_challenge code_challenge_method : String) : String :=
  "https://app.snyk.io/oauth2/authorize?" ++
    urlencode
      [("response_type", "code"),
       ("client_id", client_id),
       ("redirect_uri", redirect_uri),
       ("scope", String.intercalate " " scopes),
       ("state", state),
       ("code_challenge", code_challenge),
       ("code_challenge_method", code_challenge_method)]

/-! ## Data model: cached values, sessions, provider responses, the world -/

/-- PKCE session record as serialized by `store_pkce_data` in
services/redis.py.  `client_secret` is optional because register_app may
store a session whose client_secret was absent from the provider response;
`code` is the optional authorization code field of the source dict. -/
structure PkceData where
  code_verifier : String
  client_id : String
  client_secret : Option String
  redirect_uri : String
  org_id : String
  code : Option String
deriving Repr, DecidableEq

/-- Value stored under a Redis key: either a plain string (an access
token) or a PKCE session record (the source stores the latter as a JSON
string; the JSON round trip is modelled as the identity). -/
inductive RVal where
  | str (s : String)
  | pkce (d : PkceData)
deriving Repr, DecidableEq

/-- Token response of the provider as returned by `refresh_snyk_token`
and `exchange_code_for_token` in services/snyk.py.  The source defaults
`expires_in` to 3600 when the provider omits it, so the field here is the
already-defaulted value; a 2xx body with absent token fields is not
modelled. -/
structure TokenResp where
  access_token : String
  refresh_token : String
  expires_in : Nat
deriving Repr, DecidableEq

/-- Extract of the provider app-registration response: the source reads
`result.get("data", {}).get("attributes", {}).get("client_id" / "client_secret")`,
modelled here as the two optional fields directly. -/
structure AppResp where
  client_id : Option String
  client_secret : Option String
deriving Repr, DecidableEq

deriving instance DecidableEq for Except

/-- State and failure oracles of the OpenBao vault.  A read over HTTP
that raises (store sealed, unreachable, non-2xx) is modelled by
`readFails`; a write that raises by `writeFails`; the seal-status probe
result (itself a network call that can raise) by `sealedOutcome`. -/
structure VaultW where
  sealedOutcome : Except String Bool
  secrets : List ((String × String) × String)
  readFails : Bool
  writeFails : Bool
  deleteFails : Bool
deriving Repr, DecidableEq

/-- Outcome oracles for the three Snyk HTTP calls of services/snyk.py. -/
structure ProviderW where
  refreshOutcome : Except String TokenResp
  exchangeOutcome : Except String TokenResp
  registerOutcome : Except String AppResp
deriving Repr, DecidableEq

/-- Configuration fields of core/config.py used by the handlers. -/
structure Settings where
  REDIS_CACHE_TIME : Nat
  REDIS_PKCE_EXPIRATION : Nat
deriving Repr, DecidableEq

/-- The world: Redis contents plus an injectable set failure, the vault,
the provider oracles, and the settings. -/
structure World where
  redis : List (String × RVal)
  redisSetFails : Bool
  vault : VaultW
  prov : ProviderW
  settings : Settings
deriving Repr, DecidableEq

/-- Association-list lookup on the Redis model. -/
def aget : List (String × RVal) → String → Option RVal
  | [], _ => none
  | (k, v) :: rest, key => if k == key then some v else aget rest key

/-- Association-list delete on the Redis model. -/
def adel (m : List (String × RVal)) (key : String) : List (String × RVal) :=
  m.filter (fun p => !(p.1 == key))

/-- Association-list upsert on the Redis model. -/
def aset (m : List (String × RVal)) (key : String) (v : RVal) :
    List (String × RVal) :=
  (key, v) :: adel m key

/-- External calls a handler can make, with the arguments relevant to the
claims (the cache-set call records the TTL passed to `redis_client.set`). -/
inductive Call where
  | cacheGetTok (org client : String)
  | cacheSetTok (org client token : String) (ttl : Nat)
  | cacheDelTok (org client : String)
  | cacheGetPkce (state : String)
  | cacheSetPkce (state : String) (ttl : Nat)
  | cacheDelPkce (state : String)
  | cacheScan
  | vaultSealCheck
  | vaultRead (org client : String)
  | vaultWrite (org client : String)
  | vaultDelete (org client : String)
  | provRefresh (client_id client_secret refresh_token : String)
  | provExchange (code client_id : String)
  | provRegister
deriving Repr, DecidableEq

/-- Whether a call touches the SecretStore (the vault). -/
def Call.isVault : Call → Bool
  | .vaultSealCheck | .vaultRead _ _ | .vaultWrite _ _ | .vaultDelete _ _ => true
  | _ => false

/-- Whether a call touches the IdentityProvider. -/
def Call.isProv : Call → Bool
  | .provRefresh _ _ _ | .provExchange _ _ | .provRegister => true
  | _ => false

/-- HTTP responses of the handlers, one constructor per distinct 200
payload shape of the source plus the error shape. -/
inductive Resp where
  | okMsg (msg : String)
  | okToken (access_token : String)
  | okCallback (msg org_id client_id : String)
  | okRegister (app : AppResp) (auth_urls : List (String × String))
  | err (status : Nat) (msg : String)
  | unhandled (msg : String)
deriving Repr, DecidableEq

/-! ## services/redis.py -/

/-- Key layout of `format_key` in services/redis.py. -/
def format_key (org_id client_id : String) : String :=
  "snyk:" ++ org_id ++ ":" ++ client_id

/-- Key layout of `format_pkce_key` in services/redis.py. -/
def format_pkce_key (state : String) : String :=
  "pkce:" ++ state

/-- Cache write of `store_auth_token`: `redis_client.set(key, token, ex=ttl)`;
the injected failure models the client raising a connection error. -/
def store_auth_token (w : World) (org_id client_id token : String) (ttl : Nat) :
    World × Except String Unit × List Call :=
  if w.redisSetFails then
    (w, .error "redis set failed", [.cacheSetTok org_id client_id token ttl])
  else
    ({w with redis := aset w.redis (format_key org_id client_id) (.str token)},
     .ok (), [.cacheSetTok org_id client_id token ttl])

/-- Cache read of `get_auth_token`: exists check then get. -/
def get_auth_token (w : World) (org_id client_id : String) :
    Option String × List Call :=
  (match aget w.redis (format_key org_id client_id) with
   | some (.str t) => some t
   | _ => none,
   [.cacheGetTok org_id client_id])

/-- Cache delete of `delete_auth_token`: exists check then delete; both
the found and the not-found case are success, distinguished by message. -/
def delete_auth_token (w : World) (org_id client_id : String) :
    World × String × List Call :=
  match aget w.redis (format_key org_id client_id) with
  | none => (w, "Auth token not found.", [.cacheDelTok org_id client_id])
  | some _ =>
      ({w with redis := adel w.redis (format_key org_id client_id)},
       "Auth token deleted.", [.cacheDelTok org_id client_id])

/-- Session write of `store_pkce_data`. -/
def store_pkce_data (w : World) (state code_verifier client_id : String)
    (client_secret : Option String) (redirect_uri org_id : String)
    (expiration : Nat) : World × List Call :=
  ({w with redis := (aset w.redis (format_pkce_key state)
      (RVal.pkce ⟨code_verifier, client_id, client_secret, redirect_uri, org_id, none⟩))},
   [.cacheSetPkce state expiration])

/-- Session read of `get_pkce_data`. -/
def get_pkce_data (w : World) (state : String) :
    Option PkceData × List Call :=
  (match aget w.redis (format_pkce_key state) with
   | some (.pkce d) => some d
   | _ => none,
   [.cacheGetPkce state])

/-- Session delete of `delete_pkce_data`: exists check then delete; the
not-found case is a success with a distinct message. -/
def delete_pkce_data (w : World) (state : String) :
    World × String × List Call :=
  (if (aget w.redis (format_pkce_key state)).isSome then
     {w with redis := adel w.redis (format_pkce_key state)}
   else w,
   if (aget w.redis (format_pkce_key state)).isSome then "PKCE data deleted."
   else "PKCE data not found.",
   [.cacheDelPkce state])

/-- In-flight state enumeration of `get_all_states`: scan keys matching
`pkce:*` and strip the namespace. -/
def get_all_states (w : World) : List String × List Call :=
  ((w.redis.map (fun p => p.1)).filter (fun k => listIsPfx "pkce:".data k.data)
     |>.map (fun k => strDropN k 5),
   [.cacheScan])

/-! ## services/openbao.py -/

/-- Seal probe of `check_vault_sealed`: on any HTTP or parse failure the
source raises a RuntimeError; the oracle carries the outcome directly. -/
def check_vault_sealed (w : World) : Except String Bool × List Call :=
  (w.vault.sealedOutcome, [.vaultSealCheck])

/-- Vault write of `store_refresh_key`: on any failure the source logs
and returns False — it never raises. -/
def store_refresh_key (w : World) (org_id client_id refresh_token : String) :
    World × Bool × List Call :=
  if w.vault.writeFails then
    (w, false, [.vaultWrite org_id client_id])
  else
    ({w with vault := {w.vault with
        secrets := ((org_id, client_id), refresh_token) ::
          w.vault.secrets.filter (fun p => !(p.1 == (org_id, client_id)))}},
     true, [.vaultWrite org_id client_id])

/-- Vault read of `get_refresh_key`: any exception (store sealed,
unreachable, non-2xx such as a missing secret) yields None, as does a
2xx body without the nested refresh_token field; a successful read
returns the stored value. -/
def get_refresh_key (w : World) (org_id client_id : String) :
    Option String × List Call :=
  (if w.vault.readFails then none
   else w.vault.secrets.lookup (org_id, client_id),
   [.vaultRead org_id client_id])

/-- Vault delete of `delete_refresh_key`: on failure the source logs and
returns an error dict — it never raises. -/
def delete_refresh_key (w : World) (org_id client_id : String) :
    World × String × List Call :=
  if w.vault.deleteFails then
    (w, "Failed to delete refresh key", [.vaultDelete org_id client_id])
  else
    ({w with vault := {w.vault with
        secrets := w.vault.secrets.filter (fun p => !(p.1 == (org_id, client_id)))}},
     "Refresh key deleted.", [.vaultDelete org_id client_id])

/-- Vault write of `update_refresh_key`: same request as
`store_refresh_key` but reporting the outcome as a message dict; it never
raises. -/
def update_refresh_key (w : World) (org_id client_id refresh_key : String) :
    World × String × List Call :=
  if w.vault.writeFails then
    (w, "Failed to update refresh key", [.vaultWrite org_id client_id])
  else
    ({w with vault := {w.vault with
        secrets := ((org_id, client_id), refresh_key) ::
          w.vault.secrets.filter (fun p => !(p.1 == (org_id, client_id)))}},
     "Refresh key updated.", [.vaultWrite org_id client_id])

/-! ## services/snyk.py: provider calls -/

/-- Refresh-token exchange of `refresh_snyk_token`: a ValueError before
any HTTP when an input is empty, otherwise the oracle outcome (an error
models `raise_for_status` or a transport failure). -/
def refresh_snyk_token (w : World) (client_id client_secret refresh_token : String) :
    Except String TokenResp × List Call :=
  if client_id = "" || client_secret = "" || refresh_token = "" then
    (.error "client_id, client_secret, and refresh_token must be provided", [])
  else
    (w.prov.refreshOutcome, [.provRefresh client_id client_secret refresh_token])

/-- Authorization-code exchange of `exchange_code_for_token`: a
ValueError before any HTTP when an input is empty, otherwise the oracle
outcome. -/
def exchange_code_for_token (w : World)
    (code client_id client_secret redirect_uri code_verifier : String) :
    Except String TokenResp × List Call :=
  if code = "" || client_id = "" || client_secret = "" || redirect_uri = ""
      || code_verifier = "" then
    (.error "All parameters must be provided", [])
  else
    (w.prov.exchangeOutcome, [.provExchange code client_id])

/-- App registration of `register_snyk_app`: no input validation; the
oracle outcome of the HTTP call, already reduced to the nested fields the
caller extracts. -/
def register_snyk_app (w : World) (_name : String)
    (_scopes _redirect_uris : List String) (_org_id _auth_token : String) :
    Except String AppResp × List Call :=
  (w.prov.registerOutcome, [.provRegister])

/-! ## api/v1/endpoints.py: the orchestrator handlers -/

/-- Handler of `PUT /credentials` (`store_credentials`): strip the
inputs, refuse with 503 when the vault is sealed, validate the refresh
key against the provider, then write the rotated refresh token to the
vault.  The vault write returns a boolean and never raises, so the
surrounding try/except turns only a provider failure into a 500. -/
def store_credentials (w : World)
    (org_id client_id client_secret refresh_key : String) :
    World × Resp × List Call :=
  let org := pyStrip org_id
  let client := pyStrip client_id
  let secret := pyStrip client_secret
  let rkey := pyStrip refresh_key
  let sealedCheck := check_vault_sealed w
  match sealedCheck.1 with
  | .error e => (w, .unhandled e, sealedCheck.2)
  | .ok true =>
      (w, .err 503 "Vault is sealed, cannot store credentials.", sealedCheck.2)
  | .ok false =>
      let refreshed := refresh_snyk_token w client secret rkey
      match refreshed.1 with
      | .error e => (w, .err 500 e, sealedCheck.2 ++ refreshed.2)
      | .ok tr =>
          let stored := store_refresh_key w org client tr.refresh_token
          (stored.1, .okMsg "Credentials stored.",
           sealedCheck.2 ++ refreshed.2 ++ stored.2.2)

/-- Cache-miss continuation of `get_credentials` (the source lines after
the Redis hit check): read the refresh key from the vault (any read
failure looks like absence) and fail 404 when missing or empty; refresh
at the provider (failure is a 500); write the rotated refresh token back
(outcome ignored); cache the access token with TTL
min(REDIS_CACHE_TIME, expires_in) — a cache write failure is a 500. -/
def getCredentialsMiss (w : World) (org client secret : String)
    (tr0 : List Call) : World × Resp × List Call :=
  let read := get_refresh_key w org client
  match read.1 with
  | none =>
      (w, .err 404 "No refresh key found for org/client", tr0 ++ read.2)
  | some rk =>
      if rk = "" then
        (w, .err 404 "No refresh key found for org/client", tr0 ++ read.2)
      else
        let refreshed := refresh_snyk_token w client secret rk
        match refreshed.1 with
        | .error e => (w, .err 500 e, tr0 ++ read.2 ++ refreshed.2)
        | .ok tok =>
            let upd := update_refresh_key w org client tok.refresh_token
            let ttl := min w.settings.REDIS_CACHE_TIME tok.expires_in
            let setRes := store_auth_token upd.1 org client tok.access_token ttl
            match setRes.2.1 with
            | .error e =>
                (setRes.1, .err 500 e,
                 tr0 ++ read.2 ++ refreshed.2 ++ upd.2.2 ++ setRes.2.2)
            | .ok _ =>
                (setRes.1, .okToken tok.access_token,
                 tr0 ++ read.2 ++ refreshed.2 ++ upd.2.2 ++ setRes.2.2)

/-- Handler of `GET /credentials` (`get_credentials`): strip the inputs;
return a cached access token when present and non-empty (Python
truthiness: an empty cached value counts as a miss); otherwise continue
with `getCredentialsMiss`. -/
def get_credentials (w : World) (org_id client_id client_secret : String) :
    World × Resp × List Call :=
  let org := pyStrip org_id
  let client := pyStrip client_id
  let secret := pyStrip client_secret
  let cached := get_auth_token w org client
  match cached.1 with
  | some t =>
      if t = "" then
        getCredentialsMiss w org client secret cached.2
      else
        (w, .okToken t, cached.2)
  | none => getCredentialsMiss w org client secret cached.2

/-- Handler of `DELETE /credentials` (`delete_credentials`): strip the
inputs, fail 400 when either is empty before any external call, then
delete the cached token and the vault entry (both best-effort). -/
def delete_credentials (w : World) (org_id client_id : String) :
    World × Resp × List Call :=
  let org := pyStrip org_id
  let client := pyStrip client_id
  if org = "" || client = "" then
    (w, .err 400 "org_id and client_id are required", [])
  else
    let d1 := delete_auth_token w org client
    let d2 := delete_refresh_key d1.1 org client
    (d2.1, .okMsg "Credentials deleted.", d1.2.2 ++ d2.2.2)

/-- First draw of the state-generation loop of `register_app` that is
truthy and not among the in-flight states (the source loops
`while not (state and state not in used_states)` over fresh random
draws; the draws are supplied here as an input stream). -/
def pickState (draws : List String) (used : List String) : Option String :=
  draws.find? (fun s => !(s = "") && !(used.contains s))

/-- OAuth parameter generation step of `register_app`: derive the
challenge from the verifier and pick a fresh state.  Exhausting the
supplied draws models the (unbounded) retry loop never terminating and
is reported as a generation failure. -/
def genOauthParams (verifier : String) (draws used : List String) :
    Except String (String × String) :=
  match generate_code_challenge verifier with
  | .error e => .error e
  | .ok challenge =>
      match pickState draws used with
      | none => .error "state generation exhausted the supplied draws"
      | some s => .ok (challenge, s)

/-- Dictionary insert with Python semantics (keys of a dict are unique):
overwrite the value of an existing key in place, else append. -/
def dinsert : List (String × String) → String → String → List (String × String)
  | [], k, v => [(k, v)]
  | (k0, v0) :: rest, k, v =>
      if k0 == k then (k0, v) :: rest else (k0, v0) :: dinsert rest k v

/-- Dictionary lookup. -/
def dget : List (String × String) → String → Option String
  | [], _ => none
  | (k, v) :: rest, key => if k == key then some v else dget rest key

/-- Handler of `POST /register-app` (`register_app`): enumerate in-flight
states, generate verifier/challenge/state (the random verifier and the
state draws are inputs of the model), strip and split the request
fields, register the app at the provider, require a client_id in the
response, build one authorization URL per redirect URI sharing the same
state and challenge, and store the PKCE session under the state with the
first redirect URI. -/
def register_app (w : World) (verifier : String) (draws : List String)
    (name scopes redirect_uris org_id auth_token : String) :
    World × Resp × List Call :=
  let states := get_all_states w
  match genOauthParams verifier draws states.1 with
  | .error e => (w, .err 500 e, states.2)
  | .ok (challenge, state) =>
      let org := pyStrip org_id
      let tok := pyStrip auth_token
      let nm := pyStrip name
      let scopesList := (pySplitComma scopes).map pyStrip
      let urisList := (pySplitComma redirect_uris).map pyStrip
      let reg := register_snyk_app w nm scopesList urisList org tok
      match reg.1 with
      | .error e => (w, .err 500 e, states.2 ++ reg.2)
      | .ok app =>
          match app.client_id with
          | none =>
              (w, .err 500 "Client ID not found in response.", states.2 ++ reg.2)
          | some cid =>
              let urls := urisList.foldl
                (fun m uri =>
                  dinsert m uri
                    (generate_auth_url cid uri scopesList state challenge "S256"))
                []
              let stored := store_pkce_data w state verifier cid
                app.client_secret (urisList.headD "") org
                w.settings.REDIS_PKCE_EXPIRATION
              (stored.1, .okRegister app urls, states.2 ++ reg.2 ++ stored.2)

/-- Falsiness of an optional string under Python truthiness. -/
def optFalsy : Option String → Bool
  | none => true
  | some s => s = ""

/-- Handler of `GET /callback` (`oauth_callback`): look up the PKCE
session under the stripped state (absence is a 400); check the required
fields are truthy (else 500); refuse when the vault is sealed (503,
session kept); exchange the code (failure deletes the session under the
unstripped state and yields a 500); write the refresh token to the vault
(the write returns a boolean and never raises, so its failure branch in
the source is unreachable and the handler proceeds); cache the access
token with TTL min(expires_in, REDIS_CACHE_TIME) (failure logged only);
delete the session under the unstripped state and report success. -/
def oauth_callback (w : World) (code state _instance : String) :
    World × Resp × List Call :=
  let session := get_pkce_data w (pyStrip state)
  match session.1 with
  | none => (w, .err 400 "Invalid or expired state parameter", session.2)
  | some pd =>
      let code_verifier := pd.code_verifier
      let client_id := pyStrip pd.client_id
      let org_id := pyStrip pd.org_id
      if code_verifier = "" || client_id = "" || optFalsy pd.client_secret
          || pd.redirect_uri = "" || org_id = "" then
        (w, .err 500 "Incomplete PKCE data", session.2)
      else
        let client_secret := pd.client_secret.getD ""
        let sealedCheck := check_vault_sealed w
        match sealedCheck.1 with
        | .error e => (w, .unhandled e, session.2 ++ sealedCheck.2)
        | .ok true =>
            (w, .err 503 "Vault is sealed, cannot store credentials.",
             session.2 ++ sealedCheck.2)
        | .ok false =>
            let exch := exchange_code_for_token w code client_id client_secret
              pd.redirect_uri code_verifier
            match exch.1 with
            | .error e =>
                let del := delete_pkce_data w state
                (del.1, .err 500 ("Failed to exchange code for tokens: " ++ e),
                 session.2 ++ sealedCheck.2 ++ exch.2 ++ del.2.2)
            | .ok tok =>
                let stored := store_refresh_key w org_id client_id tok.refresh_token
                let ttl := min tok.expires_in w.settings.REDIS_CACHE_TIME
                let setRes := store_auth_token stored.1 org_id client_id
                  tok.access_token ttl
                let del := delete_pkce_data setRes.1 state
                (del.1,
                 .okCallback "Successfully authenticated and stored credentials"
                   org_id client_id,
                 session.2 ++ sealedCheck.2 ++ exch.2 ++ stored.2.2 ++
                   setRes.2.2 ++ del.2.2)

/-! ## Helper lemmas about the store models -/

theorem aget_aset_self (m : List (String × RVal)) (k : String) (v : RVal) :
    aget (aset m k v) k = some v := by
  simp [aset, aget]

theorem aget_adel_self (m : List (String × RVal)) (k : String) :
    aget (adel m k) k = none := by
  induction m with
  | nil => rfl
  | cons p rest ih =>
      by_cases h : p.1 == k
      · simpa [adel, List.filter_cons, h] using ih
      · simpa [adel, aget, List.filter_cons, h] using ih

theorem dget_dinsert_self (m : List (String × String)) (k v : String) :
    dget (dinsert m k v) k = some v := by
  induction m with
  | nil => simp [dinsert, dget]
  | cons p rest ih =>
      obtain ⟨k0, v0⟩ := p
      by_cases h : k0 == k
      · simp [dinsert, dget, h]
      · simp [dinsert, dget, h, ih]

theorem dget_dinsert_ne (m : List (String × String)) (k v u : String)
    (h : ¬ u = k) : dget (dinsert m k v) u = dget m u := by
  have hk : (k == u) = false := by
    simp [beq_iff_eq]
    intro hc
    exact h hc.symm
  induction m with
  | nil => simp [dinsert, dget, hk]
  | cons p rest ih =>
      obtain ⟨k0, v0⟩ := p
      by_cases h0 : k0 == k
      · have : (k0 == u) = false := by
          have hk0 : k0 = k := by simpa [beq_iff_eq] using h0
          subst hk0
          exact hk
        simp [dinsert, dget, h0, this]
      · simp [dinsert, dget, h0, ih]

theorem dget_foldl_ne (f : String → String) (l : List String)
    (m : List (String × String)) (u : String) (h : u ∉ l) :
    dget (l.foldl (fun acc uri => dinsert acc uri (f uri)) m) u = dget m u := by
  induction l generalizing m with
  | nil => rfl
  | cons a rest ih =>
      simp only [List.foldl_cons]
      have hu : u ∉ rest := fun hc => h (List.mem_cons_of_mem _ hc)
      have ha : ¬ u = a := by
        intro hc
        subst hc
        exact h (List.mem_cons_self _ _)
      rw [ih _ hu, dget_dinsert_ne _ _ _ _ ha]

theorem dget_foldl_mem (f : String → String) (l : List String)
    (m : List (String × String)) (u : String) (h : u ∈ l) :
    dget (l.foldl (fun acc uri => dinsert acc uri (f uri)) m) u = some (f u) := by
  induction l generalizing m with
  | nil => cases h
  | cons a rest ih =>
      simp only [List.foldl_cons]
      by_cases hr : u ∈ rest
      · exact ih _ hr
      · have hua : u = a := by
          rcases List.mem_cons.mp h with h1 | h2
          · exact h1
          · exact absurd h2 hr
        subst hua
        rw [dget_foldl_ne _ _ _ _ hr, dget_dinsert_self]

theorem pickState_spec (draws used : List String) (s : String)
    (h : pickState draws used = some s) : ¬ s = "" ∧ s ∉ used := by
  have hp := List.find?_some h
  simp only [Bool.and_eq_true, Bool.not_eq_true] at hp
  obtain ⟨h1, h2⟩ := hp
  constructor
  · simpa using h1
  · simpa using h2

/-! ## Example worlds for concrete evaluations -/

/-- Example world: empty cache, a vault holding a refresh key for
("o", "c"), a provider whose refresh succeeds and whose exchange fails. -/
def exWorld : World :=
  { redis := [], redisSetFails := false,
    vault := { sealedOutcome := .ok false, secrets := [(("o", "c"), "rk")],
               readFails := false, writeFails := false, deleteFails := false },
    prov := { refreshOutcome := .ok ⟨"at", "rt2", 3600⟩,
              exchangeOutcome := .error "boom",
              registerOutcome := .ok ⟨some "cid", some "cs"⟩ },
    settings := ⟨3000, 3600⟩ }

/-- Example PKCE session. -/
def exSession : PkceData := ⟨"cv", "cid", some "cs", "uri", "org", none⟩

/-- Example world with one PKCE session stored under state "s". -/
def exCbWorld : World :=
  {exWorld with redis := [("pkce:s", .pkce exSession)]}

/-- Example world where the code exchange succeeds but the vault write
fails. -/
def exCbStoreFail : World :=
  {exCbWorld with
     prov := {exCbWorld.prov with exchangeOutcome := .ok ⟨"at", "rt", 7200⟩},
     vault := {exCbWorld.vault with writeFails := true}}

/-- Example world with a cached access token for ("o", "c"). -/
def exHitWorld : World :=
  {exWorld with redis := [("snyk:o:c", .str "t")]}

/-! ## Claim theorems -/

/-- C8 (confirmed): generate_code_challenge is deterministic — for every
non-empty verifier the challenge is exactly the URL-safe base64 encoding
(padding stripped) of the SHA-256 digest of the UTF-8 verifier, so equal
verifiers always yield an equal challenge — and it fails with a
ValueError (the InvalidArgument of the spec) on the empty verifier. -/
theorem C8_code_challenge_deterministic :
    (∀ v, ¬ v = "" →
        generate_code_challenge v = .ok (b64urlNoPad (sha256 (strBytes v)))) ∧
    (∀ v₁ v₂, v₁ = v₂ →
        generate_code_challenge v₁ = generate_code_challenge v₂) ∧
    generate_code_challenge "" = .error "Code verifier must not be empty." := by
  refine ⟨?_, ?_, rfl⟩
  · intro v h
    simp [generate_code_challenge, h]
  · intro v₁ v₂ h
    rw [h]

set_option maxRecDepth 100000 in
/-- Witness for C8 at the verifier "abc", with the digest anchored to the
published SHA-256 test vector for "abc". -/
theorem C8_code_challenge_deterministic_witness :
    generate_code_challenge "abc" = .ok (b64urlNoPad (sha256 (strBytes "abc"))) ∧
    generate_code_challenge "abc" =
      .ok "ungWv48Bz-pBQUDeXa4iI7ADYaOWF3qctBD_YfIAFa0" :=
  ⟨C8_code_challenge_deterministic.1 "abc" (by decide), by decide⟩

/-- C6 (confirmed): when the TokenCache holds a (non-empty) access token
for the identity, get_credentials returns it immediately and the trace of
external calls is exactly the one cache read — the SecretStore and the
IdentityProvider are never invoked. -/
theorem C6_cache_hit_no_external_calls (w : World)
    (org_id client_id client_secret t : String)
    (hhit : aget w.redis (format_key (pyStrip org_id) (pyStrip client_id)) =
      some (.str t))
    (ht : ¬ t = "") :
    get_credentials w org_id client_id client_secret =
      (w, .okToken t, [.cacheGetTok (pyStrip org_id) (pyStrip client_id)]) ∧
    ∀ c ∈ (get_credentials w org_id client_id client_secret).2.2,
      c.isVault = false ∧ c.isProv = false := by
  have h1 : get_credentials w org_id client_id client_secret =
      (w, .okToken t, [.cacheGetTok (pyStrip org_id) (pyStrip client_id)]) := by
    simp [get_credentials, get_auth_token, hhit, ht]
  refine ⟨h1, ?_⟩
  rw [h1]
  intro c hc
  simp only [List.mem_singleton] at hc
  subst hc
  exact ⟨rfl, rfl⟩

set_option maxRecDepth 40000 in
/-- Witness for C6 on a world whose cache holds "t" for ("o", "c"). -/
theorem C6_cache_hit_no_external_calls_witness :
    get_credentials exHitWorld "o" "c" "s" =
      (exHitWorld, .okToken "t", [.cacheGetTok (pyStrip "o") (pyStrip "c")]) :=
  (C6_cache_hit_no_external_calls exHitWorld "o" "c" "s" "t"
    (by decide) (by decide)).1

/-- C10 (confirmed): every failure of the SecretStore read is converted
to None by get_refresh_key, and a cache-missing get_credentials call with
a failing store read reports 404 NotFound — never an Unavailable
condition. -/
theorem C10_read_failure_is_absence :
    (∀ w org client, w.vault.readFails = true →
        (get_refresh_key w org client).1 = none) ∧
    (∀ w org_id client_id client_secret,
        aget w.redis (format_key (pyStrip org_id) (pyStrip client_id)) = none →
        w.vault.readFails = true →
        (get_credentials w org_id client_id client_secret).2.1 =
          .err 404 "No refresh key found for org/client") := by
  constructor
  · intro w org client h
    simp [get_refresh_key, h]
  · intro w org_id client_id client_secret hmiss hfail
    simp [get_credentials, get_auth_token, hmiss, getCredentialsMiss,
      get_refresh_key, hfail]

set_option maxRecDepth 40000 in
/-- Witness for C10 on a world whose vault read fails. -/
theorem C10_read_failure_is_absence_witness :
    (get_refresh_key {exWorld with vault := {exWorld.vault with readFails := true}}
      "o" "c").1 = none ∧
    (get_credentials {exWorld with vault := {exWorld.vault with readFails := true}}
      "o" "c" "s").2.1 = .err 404 "No refresh key found for org/client" :=
  ⟨C10_read_failure_is_absence.1 _ "o" "c" rfl,
   C10_read_failure_is_absence.2 _ "o" "c" "s" (by decide) rfl⟩

/-- C4 (confirmed): in every register_app run that stores a PKCE session,
the state under which the session is stored was produced by retrying the
generator past every draw that is empty or collides with the in-flight
states enumerated at the start of the operation, so the stored state is
not a member of that set (and is non-empty). -/
theorem C4_register_state_not_in_flight (w : World) (verifier : String)
    (draws : List String) (name scopes redirect_uris org_id auth_token : String)
    (challenge s : String) (app : AppResp) (cid : String)
    (hch : generate_code_challenge verifier = .ok challenge)
    (hs : pickState draws (get_all_states w).1 = some s)
    (hreg : w.prov.registerOutcome = .ok app)
    (hcid : app.client_id = some cid) :
    s ∉ (get_all_states w).1 ∧ ¬ s = "" ∧
    aget (register_app w verifier draws name scopes redirect_uris
        org_id auth_token).1.redis (format_pkce_key s) =
      some (.pkce ⟨verifier, cid, app.client_secret,
        ((pySplitComma redirect_uris).map pyStrip).headD "",
        pyStrip org_id, none⟩) := by
  obtain ⟨h1, h2⟩ := pickState_spec draws (get_all_states w).1 s hs
  refine ⟨h2, h1, ?_⟩
  simp [register_app, genOauthParams, hch, hs, register_snyk_app, hreg, hcid,
    store_pkce_data, aget_aset_self]

set_option maxRecDepth 100000 in
/-- Witness for C4: the world already holds a session under state "s",
the first draw "s" collides and the second draw "x" is chosen. -/
theorem C4_register_state_not_in_flight_witness :
    "x" ∉ (get_all_states exCbWorld).1 ∧ ¬ "x" = "" ∧
    aget (register_app exCbWorld "ver" ["s", "x"] "n" "a,b" "u1, u2"
        "o" "tok").1.redis (format_pkce_key "x") =
      some (.pkce ⟨"ver", "cid", some "cs",
        ((pySplitComma "u1, u2").map pyStrip).headD "", pyStrip "o", none⟩) :=
  C4_register_state_not_in_flight exCbWorld "ver" ["s", "x"] "n" "a,b"
    "u1, u2" "o" "tok" (b64urlNoPad (sha256 (strBytes "ver"))) "x"
    ⟨some "cid", some "cs"⟩ "cid" (by decide) (by decide) rfl rfl

/-- C9 (confirmed): every register_app run that succeeds returns one
authorization URL per (stripped) redirect URI, all built with the same
state and the same code challenge, while the PKCE session stored under
that state records only the first redirect URI of the list. -/
theorem C9_one_url_per_redirect_uri (w : World) (verifier : String)
    (draws : List String) (name scopes redirect_uris org_id auth_token : String)
    (challenge s : String) (app : AppResp) (cid : String)
    (hch : generate_code_challenge verifier = .ok challenge)
    (hs : pickState draws (get_all_states w).1 = some s)
    (hreg : w.prov.registerOutcome = .ok app)
    (hcid : app.client_id = some cid) :
    ∃ urls,
      (register_app w verifier draws name scopes redirect_uris
          org_id auth_token).2.1 = .okRegister app urls ∧
      (∀ uri ∈ (pySplitComma redirect_uris).map pyStrip,
          dget urls uri = some (generate_auth_url cid uri
            ((pySplitComma scopes).map pyStrip) s challenge "S256")) ∧
      aget (register_app w verifier draws name scopes redirect_uris
          org_id auth_token).1.redis (format_pkce_key s) =
        some (.pkce ⟨verifier, cid, app.client_secret,
          ((pySplitComma redirect_uris).map pyStrip).headD "",
          pyStrip org_id, none⟩) := by
  refine ⟨((pySplitComma redirect_uris).map pyStrip).foldl
      (fun acc uri => dinsert acc uri (generate_auth_url cid uri
        ((pySplitComma scopes).map pyStrip) s challenge "S256")) [],
    ?_, ?_, ?_⟩
  · simp [register_app, genOauthParams, hch, hs, register_snyk_app, hreg, hcid,
      store_pkce_data]
  · intro uri hmem
    exact dget_foldl_mem
      (fun u => generate_auth_url cid u ((pySplitComma scopes).map pyStrip)
        s challenge "S256")
      _ _ _ hmem
  · simp [register_app, genOauthParams, hch, hs, register_snyk_app, hreg, hcid,
      store_pkce_data, aget_aset_self]

set_option maxRecDepth 100000 in
/-- Witness for C9 with two redirect URIs "u1" and "u2". -/
theorem C9_one_url_per_redirect_uri_witness :
    ∃ urls,
      (register_app exWorld "ver" ["x"] "n" "a,b" "u1, u2"
          "o" "tok").2.1 = .okRegister ⟨some "cid", some "cs"⟩ urls ∧
      (∀ uri ∈ (pySplitComma "u1, u2").map pyStrip,
          dget urls uri = some (generate_auth_url "cid" uri
            ((pySplitComma "a,b").map pyStrip) "x"
            (b64urlNoPad (sha256 (strBytes "ver"))) "S256")) ∧
      aget (register_app exWorld "ver" ["x"] "n" "a,b" "u1, u2"
          "o" "tok").1.redis (format_pkce_key "x") =
        some (.pkce ⟨"ver", "cid", some "cs",
          ((pySplitComma "u1, u2").map pyStrip).headD "",
          pyStrip "o", none⟩) :=
  C9_one_url_per_redirect_uri exWorld "ver" ["x"] "n" "a,b" "u1, u2" "o" "tok"
    (b64urlNoPad (sha256 (strBytes "ver"))) "x" ⟨some "cid", some "cs"⟩ "cid"
    (by decide) (by decide) rfl rfl

/-- Truthy optional strings have a non-empty getD value. -/
theorem optFalsy_false {o : Option String} (h : optFalsy o = false) :
    ¬ o.getD "" = "" := by
  cases o with
  | none => simp [optFalsy] at h
  | some s => simpa [optFalsy] using h

/-- C5 counterexample: the callback looks the session up under the
stripped state but deletes it under the raw state, so presenting
" s " for a session stored under "s" leaves the session in place after a
failed exchange, and the retried callback is not rejected with
InvalidState — it reaches the provider again. -/
theorem C5_counterexample :
    (oauth_callback exCbWorld "code" " s " "i").2.1 =
      .err 500 "Failed to exchange code for tokens: boom" ∧
    aget (oauth_callback exCbWorld "code" " s " "i").1.redis
      (format_pkce_key "s") = some (.pkce exSession) ∧
    (oauth_callback (oauth_callback exCbWorld "code" " s " "i").1
        "code" " s " "i").2.1 ≠
      .err 400 "Invalid or expired state parameter" := by
  refine ⟨by decide, by decide, by decide⟩

/-- C5 (corrected): for every callback whose presented state token equals
its stripped form, a failed code exchange deletes the PKCE session keyed
by that state and surfaces a 500, and a subsequent callback presenting
the same state fails with InvalidState (400) — the session is single-use.
(The unamended claim fails when the presented state carries surrounding
whitespace, because the lookup strips the state but the deletion does
not; see the counterexample.) -/
theorem C5_failed_exchange_single_use (w : World)
    (code state inst e : String) (pd : PkceData)
    (htrim : pyStrip state = state)
    (hsess : aget w.redis (format_pkce_key state) = some (.pkce pd))
    (hcv : ¬ pd.code_verifier = "")
    (hcid : ¬ pyStrip pd.client_id = "")
    (hcs : optFalsy pd.client_secret = false)
    (huri : ¬ pd.redirect_uri = "")
    (horg : ¬ pyStrip pd.org_id = "")
    (hseal : w.vault.sealedOutcome = .ok false)
    (hcode : ¬ code = "")
    (hex : w.prov.exchangeOutcome = .error e) :
    (oauth_callback w code state inst).2.1 =
      .err 500 ("Failed to exchange code for tokens: " ++ e) ∧
    aget (oauth_callback w code state inst).1.redis
      (format_pkce_key state) = none ∧
    (oauth_callback (oauth_callback w code state inst).1
        code state inst).2.1 =
      .err 400 "Invalid or expired state parameter" := by
  have hcs' := optFalsy_false hcs
  refine ⟨?_, ?_, ?_⟩
  · simp [oauth_callback, get_pkce_data, htrim, hsess, hcv, hcid, hcs, huri,
      horg, check_vault_sealed, hseal, exchange_code_for_token, hcode, hcs',
      hex, delete_pkce_data]
  · simp [oauth_callback, get_pkce_data, htrim, hsess, hcv, hcid, hcs, huri,
      horg, check_vault_sealed, hseal, exchange_code_for_token, hcode, hcs',
      hex, delete_pkce_data, aget_adel_self]
  · simp [oauth_callback, get_pkce_data, htrim, hsess, hcv, hcid, hcs, huri,
      horg, check_vault_sealed, hseal, exchange_code_for_token, hcode, hcs',
      hex, delete_pkce_data, aget_adel_self]

set_option maxRecDepth 40000 in
/-- Witness for C5 with the whitespace-free state "s". -/
theorem C5_failed_exchange_single_use_witness :
    (oauth_callback exCbWorld "code" "s" "i").2.1 =
      .err 500 ("Failed to exchange code for tokens: " ++ "boom") ∧
    aget (oauth_callback exCbWorld "code" "s" "i").1.redis
      (format_pkce_key "s") = none ∧
    (oauth_callback (oauth_callback exCbWorld "code" "s" "i").1
        "code" "s" "i").2.1 =
      .err 400 "Invalid or expired state parameter" :=
  C5_failed_exchange_single_use exCbWorld "code" "s" "i" "boom" exSession
    (by decide) (by decide) (by decide) (by decide) (by decide) (by decide)
    (by decide) rfl (by decide) rfl

/-- C7 (confirmed): on the get_credentials refresh path and on the
oauth_callback success path, the access token is cached by a set call
whose TTL is exactly min(configured REDIS_CACHE_TIME ceiling,
provider-reported expires_in), hence at most the ceiling and at most the
reported expires_in. -/
theorem C7_cache_ttl_is_min :
    (∀ (w : World) (org_id client_id client_secret rk : String)
        (tok : TokenResp),
        aget w.redis (format_key (pyStrip org_id) (pyStrip client_id)) = none →
        w.vault.readFails = false →
        w.vault.secrets.lookup (pyStrip org_id, pyStrip client_id) = some rk →
        ¬ rk = "" → ¬ pyStrip client_id = "" → ¬ pyStrip client_secret = "" →
        w.prov.refreshOutcome = .ok tok →
        Call.cacheSetTok (pyStrip org_id) (pyStrip client_id) tok.access_token
            (min w.settings.REDIS_CACHE_TIME tok.expires_in) ∈
          (get_credentials w org_id client_id client_secret).2.2 ∧
        min w.settings.REDIS_CACHE_TIME tok.expires_in ≤
          w.settings.REDIS_CACHE_TIME ∧
        min w.settings.REDIS_CACHE_TIME tok.expires_in ≤ tok.expires_in) ∧
    (∀ (w : World) (code state inst : String) (pd : PkceData)
        (tok : TokenResp),
        aget w.redis (format_pkce_key (pyStrip state)) = some (.pkce pd) →
        ¬ pd.code_verifier = "" → ¬ pyStrip pd.client_id = "" →
        optFalsy pd.client_secret = false → ¬ pd.redirect_uri = "" →
        ¬ pyStrip pd.org_id = "" →
        w.vault.sealedOutcome = .ok false → ¬ code = "" →
        w.prov.exchangeOutcome = .ok tok →
        Call.cacheSetTok (pyStrip pd.org_id) (pyStrip pd.client_id)
            tok.access_token
            (min tok.expires_in w.settings.REDIS_CACHE_TIME) ∈
          (oauth_callback w code state inst).2.2 ∧
        min tok.expires_in w.settings.REDIS_CACHE_TIME ≤ tok.expires_in ∧
        min tok.expires_in w.settings.REDIS_CACHE_TIME ≤
          w.settings.REDIS_CACHE_TIME) := by
  constructor
  · intro w org_id client_id client_secret rk tok hmiss hread hsec hrk hcid
      hcs hrefresh
    refine ⟨?_, Nat.min_le_left _ _, Nat.min_le_right _ _⟩
    cases hwf : w.vault.writeFails <;> cases hsf : w.redisSetFails <;>
      simp [get_credentials, get_auth_token, hmiss, getCredentialsMiss,
        get_refresh_key, hread, hsec, hrk, refresh_snyk_token, hcid, hcs,
        hrefresh, update_refresh_key, hwf, store_auth_token, hsf]
  · intro w code state inst pd tok hsess hcv hcid hcs huri horg hseal hcode hex
    have hcs' := optFalsy_false hcs
    refine ⟨?_, Nat.min_le_left _ _, Nat.min_le_right _ _⟩
    cases hwf : w.vault.writeFails <;> cases hsf : w.redisSetFails <;>
      simp [oauth_callback, get_pkce_data, hsess, hcv, hcid, hcs, huri, horg,
        check_vault_sealed, hseal, exchange_code_for_token, hcode, hcs', hex,
        store_refresh_key, hwf, store_auth_token, hsf, delete_pkce_data]

set_option maxRecDepth 40000 in
/-- Witness for C7: the refresh path on a fresh world (TTL
min 3000 3600 = 3000) and the callback success path (TTL
min 7200 3000 = 3000). -/
theorem C7_cache_ttl_is_min_witness :
    (Call.cacheSetTok (pyStrip "o") (pyStrip "c") "at" (min 3000 3600) ∈
        (get_credentials exWorld "o" "c" "s").2.2 ∧
      min 3000 3600 ≤ 3000 ∧ min 3000 3600 ≤ 3600) ∧
    (Call.cacheSetTok (pyStrip "org") (pyStrip "cid") "at" (min 7200 3000) ∈
        (oauth_callback exCbStoreFail "code" "s" "i").2.2 ∧
      min 7200 3000 ≤ 7200 ∧ min 7200 3000 ≤ 3000) :=
  ⟨C7_cache_ttl_is_min.1 exWorld "o" "c" "s" "rk" ⟨"at", "rt2", 3600⟩
     (by decide) rfl (by decide) (by decide) (by decide) (by decide) rfl,
   C7_cache_ttl_is_min.2 exCbStoreFail "code" "s" "i" exSession
     ⟨"at", "rt", 7200⟩ (by decide) (by decide) (by decide) (by decide)
     (by decide) (by decide) rfl (by decide) rfl⟩

/-- C1 counterexample: on a cache miss with a stored refresh key and a
successful provider refresh, an injected TokenCache set failure makes
get_credentials return a 500 instead of the fresh access token "at"
returned by the provider. -/
theorem C1_counterexample :
    (get_credentials {exWorld with redisSetFails := true} "o" "c" "s").2.1 =
      .err 500 "redis set failed" ∧
    (get_credentials {exWorld with redisSetFails := true} "o" "c" "s").2.1 ≠
      .okToken "at" ∧
    exWorld.prov.refreshOutcome = .ok ⟨"at", "rt2", 3600⟩ := by
  refine ⟨by decide, by decide, rfl⟩

/-- C1 (corrected): on the get_credentials refresh path, a failure of the
TokenCache set after a successful provider refresh is fatal: the handler
returns a 500 store error instead of the fresh access token (the rotated
refresh token has already been written to the SecretStore, as the trace
shows).  The unamended claim — that the failure is logged only and the
token still returned — holds for the oauth_callback cache write but not
here; see the counterexample. -/
theorem C1_cache_store_failure_is_fatal (w : World)
    (org_id client_id client_secret rk : String) (tok : TokenResp)
    (hmiss : aget w.redis (format_key (pyStrip org_id) (pyStrip client_id)) =
      none)
    (hread : w.vault.readFails = false)
    (hsec : w.vault.secrets.lookup (pyStrip org_id, pyStrip client_id) =
      some rk)
    (hrk : ¬ rk = "")
    (hcid : ¬ pyStrip client_id = "")
    (hcs : ¬ pyStrip client_secret = "")
    (hrefresh : w.prov.refreshOutcome = .ok tok)
    (hfail : w.redisSetFails = true) :
    (get_credentials w org_id client_id client_secret).2.1 =
      .err 500 "redis set failed" ∧
    Call.vaultWrite (pyStrip org_id) (pyStrip client_id) ∈
      (get_credentials w org_id client_id client_secret).2.2 := by
  cases hwf : w.vault.writeFails <;>
    constructor <;>
      simp [get_credentials, get_auth_token, hmiss, getCredentialsMiss,
        get_refresh_key, hread, hsec, hrk, refresh_snyk_token, hcid, hcs,
        hrefresh, update_refresh_key, hwf, store_auth_token, hfail]

set_option maxRecDepth 40000 in
/-- Witness for C1 on the example world with the set failure injected. -/
theorem C1_cache_store_failure_is_fatal_witness :
    (get_credentials {exWorld with redisSetFails := true} "o" "c" "s").2.1 =
      .err 500 "redis set failed" ∧
    Call.vaultWrite (pyStrip "o") (pyStrip "c") ∈
      (get_credentials {exWorld with redisSetFails := true} "o" "c" "s").2.2 :=
  C1_cache_store_failure_is_fatal {exWorld with redisSetFails := true}
    "o" "c" "s" "rk" ⟨"at", "rt2", 3600⟩ (by decide) rfl (by decide)
    (by decide) (by decide) (by decide) rfl rfl

/-- C2 evaluation (code bug): in a callback whose exchange succeeds but
whose vault write fails, the handler reports 200 success and the refresh
token is not durably stored — store_refresh_key returns False instead of
raising, so the except branch of the source (delete the session, return
500) is unreachable dead code. -/
theorem C2_store_failure_reports_success :
    exCbStoreFail.vault.writeFails = true ∧
    (oauth_callback exCbStoreFail "code" "s" "i").2.1 =
      .okCallback "Successfully authenticated and stored credentials"
        "org" "cid" ∧
    (oauth_callback exCbStoreFail "code" "s" "i").1.vault.secrets.lookup
      ("org", "cid") = none := by
  refine ⟨rfl, by decide, by decide⟩

/-- C3 counterexample: get_credentials with an empty org_id is not
rejected with a 400 — it consults the cache and the store (a non-empty
external-call trace) and reports the absence as a 404 NotFound. -/
theorem C3_counterexample :
    pyStrip "" = "" ∧
    (get_credentials exWorld "" "c" "s").2.1 =
      .err 404 "No refresh key found for org/client" ∧
    (get_credentials exWorld "" "c" "s").2.2 ≠ ([] : List Call) := by
  refine ⟨rfl, by decide, by decide⟩

/-- C3 (corrected): only delete_credentials validates emptiness of the
identity, failing 400 before any external call; get_credentials performs
no such validation — it always consults the cache and the store and
reports a missing refresh key (also for an empty identity) as a 404
NotFound — and store_credentials performs none either, proceeding to the
seal probe and the provider call and reporting success even with an
empty org_id. -/
theorem C3_validation_only_on_delete :
    (∀ w org_id client_id,
        pyStrip org_id = "" ∨ pyStrip client_id = "" →
        delete_credentials w org_id client_id =
          (w, .err 400 "org_id and client_id are required", [])) ∧
    (∀ w org_id client_id client_secret,
        aget w.redis (format_key (pyStrip org_id) (pyStrip client_id)) = none →
        w.vault.readFails = true →
        (get_credentials w org_id client_id client_secret).2.1 =
          .err 404 "No refresh key found for org/client" ∧
        (get_credentials w org_id client_id client_secret).2.2 =
          [.cacheGetTok (pyStrip org_id) (pyStrip client_id),
           .vaultRead (pyStrip org_id) (pyStrip client_id)]) ∧
    (∀ (w : World) (org_id client_id client_secret refresh_key : String)
        (tok : TokenResp),
        pyStrip org_id = "" →
        w.vault.sealedOutcome = .ok false →
        ¬ pyStrip client_id = "" → ¬ pyStrip client_secret = "" →
        ¬ pyStrip refresh_key = "" →
        w.prov.refreshOutcome = .ok tok →
        (store_credentials w org_id client_id client_secret refresh_key).2.1 =
          .okMsg "Credentials stored." ∧
        Call.vaultSealCheck ∈
          (store_credentials w org_id client_id client_secret
            refresh_key).2.2) := by
  refine ⟨?_, ?_, ?_⟩
  · intro w org_id client_id h
    rcases h with h | h <;> simp [delete_credentials, h]
  · intro w org_id client_id client_secret hmiss hfail
    constructor <;>
      simp [get_credentials, get_auth_token, hmiss, getCredentialsMiss,
        get_refresh_key, hfail]
  · intro w org_id client_id client_secret refresh_key tok horg hseal hcid
      hcs hrk hrefresh
    cases hwf : w.vault.writeFails <;>
      constructor <;>
        simp [store_credentials, check_vault_sealed, hseal,
          refresh_snyk_token, hcid, hcs, hrk, hrefresh, store_refresh_key,
          hwf]

set_option maxRecDepth 40000 in
/-- Witness for C3: an empty org_id on all three operations. -/
theorem C3_validation_only_on_delete_witness :
    delete_credentials exWorld " " "c" =
      (exWorld, .err 400 "org_id and client_id are required", []) ∧
    ((get_credentials {exWorld with vault :=
        {exWorld.vault with readFails := true}} "" "c" "s").2.1 =
      .err 404 "No refresh key found for org/client" ∧
     (get_credentials {exWorld with vault :=
        {exWorld.vault with readFails := true}} "" "c" "s").2.2 =
      [.cacheGetTok (pyStrip "") (pyStrip "c"),
       .vaultRead (pyStrip "") (pyStrip "c")]) ∧
    ((store_credentials exWorld "" "c" "s" "rk").2.1 =
      .okMsg "Credentials stored." ∧
     Call.vaultSealCheck ∈ (store_credentials exWorld "" "c" "s" "rk").2.2) :=
  ⟨C3_validation_only_on_delete.1 exWorld " " "c" (Or.inl (by decide)),
   C3_validation_only_on_delete.2.1 _ "" "c" "s" (by decide) rfl,
   C3_validation_only_on_delete.2.2 exWorld "" "c" "s" "rk"
     ⟨"at", "rt2", 3600⟩ (by decide) rfl (by decide) (by decide) (by decide)
     rfl⟩

end Snykey

